import Mathlib

/-!
Verification of the external-data checker core (externaldata.py, checker.py,
checkers/urlchecker.py) via a shallow embedding in Lean.

Strings are modelled by Lean strings; Python dictionaries holding a known set
of keys are modelled by structures with optional fields; Python object
mutation is modelled by explicit state passing; Python exceptions by
Except / Option results.
-/

namespace FEDC

/-! Reference Snapshot: the ExternalFile namedtuple (externaldata.py line 27).
The sha256 checksum may be absent in a manifest, in which case Python stores
None; hence an optional checksum field. -/

structure ExternalFile where
  url : String
  checksum : Option String
  size : Int
  version : Option String
deriving DecidableEq, Repr

/-- Embedding of ExternalFile.matches (externaldata.py lines 30-39). -/
def ExternalFile.matches (self other : ExternalFile) : Bool :=
  self.url == other.url &&
  self.checksum == other.checksum &&
  (self.size == -1 || other.size == -1 || self.size == other.size)

/-! External data kinds and check states (externaldata.py lines 42-54). -/

inductive DataType
  | EXTRA_DATA
  | FILE
  | ARCHIVE
deriving DecidableEq, Repr

inductive State
  | UNKNOWN
  | VALID
  | BROKEN
deriving DecidableEq, Repr

/-- Embedding of the TYPES dictionary lookup cls.TYPES.get(source.get('type'))
(externaldata.py lines 45-49): the argument is the optional value of the
'type' key of the source dict; an absent or unrecognized key maps to none. -/
def TYPES_get : Option String → Option DataType
  | some "file" => some DataType.FILE
  | some "archive" => some DataType.ARCHIVE
  | some "extra-data" => some DataType.EXTRA_DATA
  | _ => none

/-- Checker metadata, the x-checker-data dict. The code only reads the keys
'type' and 'url' (urlchecker.py lines 46-48), so those are modelled; an
absent dict is modelled by both fields none. -/
structure CheckerData where
  type : Option String := none
  url : Option String := none
deriving DecidableEq, Repr

/-- Embedding of the fields ExternalData.__init__ assigns (externaldata.py
lines 56-64): current_version is built from the url, checksum and size, with
version None; new_version starts None and state starts UNKNOWN. -/
structure ExternalData where
  type : DataType
  filename : String
  arches : List String := []
  checker_data : CheckerData := {}
  current_version : ExternalFile
  new_version : Option ExternalFile := none
  state : State := State.UNKNOWN
deriving DecidableEq, Repr

/-- C2: ExternalFile.matches is exactly url equality, checksum equality and
the size wildcard rule (either size -1 or equal sizes); the version field
plays no role; and matches is symmetric. -/
theorem matches_spec (A B : ExternalFile) :
    (A.matches B = true ↔
      (A.url = B.url ∧ A.checksum = B.checksum ∧
        (A.size = -1 ∨ B.size = -1 ∨ A.size = B.size)))
    ∧ A.matches B = B.matches A
    ∧ (∀ v w : Option String,
        ExternalFile.matches { A with version := v } { B with version := w } =
          A.matches B) := by
  refine ⟨?_, ?_, ?_⟩
  · simp only [ExternalFile.matches, Bool.and_eq_true, Bool.or_eq_true,
      beq_iff_eq]
    tauto
  · simp only [ExternalFile.matches]
    rw [Bool.eq_iff_iff]
    simp only [Bool.and_eq_true, Bool.or_eq_true, beq_iff_eq]
    constructor
    · rintro ⟨⟨h1, h2⟩, (h3 | h3) | h3⟩
      · exact ⟨⟨h1.symm, h2.symm⟩, Or.inl (Or.inr h3)⟩
      · exact ⟨⟨h1.symm, h2.symm⟩, Or.inl (Or.inl h3)⟩
      · exact ⟨⟨h1.symm, h2.symm⟩, Or.inr h3.symm⟩
    · rintro ⟨⟨h1, h2⟩, (h3 | h3) | h3⟩
      · exact ⟨⟨h1.symm, h2.symm⟩, Or.inl (Or.inr h3)⟩
      · exact ⟨⟨h1.symm, h2.symm⟩, Or.inl (Or.inl h3)⟩
      · exact ⟨⟨h1.symm, h2.symm⟩, Or.inr h3.symm⟩
  · intro v w
    simp only [ExternalFile.matches]

/-! String helpers mirroring the Python primitives the code relies on, written
over the character list of a Lean string so that concrete instances reduce. -/

/-- Splitting of a character list at every occurrence of a separator, the
semantics of Python str.split with a one-character separator and no limit. -/
def splitChars (sep : Char) : List Char → List (List Char)
  | [] => [[]]
  | c :: cs =>
    match splitChars sep cs with
    | [] => if c = sep then [[], []] else [[c]]
    | h :: t => if c = sep then [] :: h :: t else (c :: h) :: t

/-- Python s.split(sep) for a one-character separator. -/
def pySplit (s : String) (sep : Char) : List String :=
  (splitChars sep s.data).map String.mk

/-- Python s.split(sep, maxsplit): at most maxsplit splits from the left, the
remainder kept whole as the last piece. -/
def pySplitMax (s : String) (sep : Char) (maxsplit : Nat) : List String :=
  let parts := pySplit s sep
  if parts.length ≤ maxsplit + 1 then parts
  else parts.take maxsplit ++
    [String.intercalate (String.mk [sep]) (parts.drop maxsplit)]

/-- Python s.endswith(t). -/
def pyEndsWith (s t : String) : Bool :=
  List.isSuffixOf t.data s.data

/-- Truthiness-based fallback, Python a or b for an optional string a: None
and the empty string are falsy and select the fallback. -/
def pyOrStr (a : Option String) (b : String) : String :=
  match a with
  | none => b
  | some s => if s = "" then b else s

/-- Embedding of os.path.basename for the POSIX-style paths and URLs this
code handles: the part after the last slash. -/
def basename (p : String) : String :=
  (pySplit p '/').getLastD ""

/-- Decimal digit value of a character, if it is a digit. -/
def digitVal (c : Char) : Option Nat :=
  if 48 ≤ c.toNat ∧ c.toNat ≤ 57 then some (c.toNat - 48) else none

/-- Decimal reading of a character list; none when empty or containing a
non-digit. -/
def decimalNat (cs : List Char) : Option Nat :=
  match cs with
  | [] => none
  | _ =>
    cs.foldl
      (fun acc c =>
        match acc, digitVal c with
        | some n, some d => some (10 * n + d)
        | _, _ => none)
      (some 0)

/-- Python int(s) on a decimal string literal, with an optional sign; a
malformed string raises ValueError in Python, modelled as none. -/
def pyToInt (s : String) : Option Int :=
  match s.data with
  | '-' :: rest => (decimalNat rest).map (fun n => -(n : Int))
  | '+' :: rest => (decimalNat rest).map (fun n => (n : Int))
  | cs => (decimalNat cs).map (fun n => (n : Int))

/-! The finish-args extractor, class ExternalDataFinishArg
(externaldata.py lines 128-160). -/

/-- The marker string stored in the class attribute named by the code as the
arg's expected lead, '--extra-data=' (externaldata.py line 129). -/
def finishArgMark : String := "--extra-data="

/-- The five colon-delimited payload fields of a finish arg. -/
structure FinishArgFields where
  name : String
  sha256sum : String
  size : String
  install_size : String
  url : String
deriving DecidableEq, Repr

/-- Embedding of the field extraction in ExternalDataFinishArg.__init__
(externaldata.py lines 131-138): the slice arg[len(PREFIX) + 1:] followed by
extra_data.split(":", 4); a split that does not produce exactly five pieces
makes the Python tuple unpacking raise ValueError, modelled as none. -/
def finishArgSplit (arg : String) : Option FinishArgFields :=
  let extra_data := arg.drop (finishArgMark.length + 1)
  match pySplitMax extra_data ':' 4 with
  | [name, sha256sum, size, install_size, url] =>
      some ⟨name, sha256sum, size, install_size, url⟩
  | _ => none

/-- Embedding of ExternalDataFinishArg.__init__ as a whole: the Reference
built from the extracted fields, with int(size) applied to the size field
(ExternalData.__init__, externaldata.py line 62); a non-numeric size raises
in Python, modelled as none. -/
def ExternalDataFinishArg.fromArg (arg : String) : Option ExternalData :=
  match finishArgSplit arg with
  | none => none
  | some f =>
    match pyToInt f.size with
    | none => none
    | some sz =>
        some { type := DataType.EXTRA_DATA, filename := f.name,
               current_version :=
                 { url := f.url, checksum := some f.sha256sum, size := sz,
                   version := none } }

/-- Embedding of the string built by ExternalDataFinishArg.update
(externaldata.py lines 151-160): the stored display name and the new version
fields joined by colons with the install-size field left empty, behind the
'--extra-data=' marker. Python str.join requires every component to be a
string, so the components are strings here. -/
def ExternalDataFinishArg.updateArg
    (filename nv_checksum nv_size nv_url : String) : String :=
  finishArgMark ++
    String.intercalate ":" [filename, nv_checksum, nv_size, "", nv_url]

/-- C1: evaluating the finish-arg constructor at the claim's input. The slice
arg[len(PREFIX) + 1 :] drops one character beyond the '--extra-data=' marker
itself, so the parsed name is "oo" rather than "foo", and re-encoding through
update produces a string that differs from the original argument. -/
theorem finishArg_roundTrip_drops_first_char :
    ExternalDataFinishArg.fromArg "--extra-data=foo:abc123:10::http://x/foo" =
      some { type := DataType.EXTRA_DATA, filename := "oo",
             current_version :=
               { url := "http://x/foo", checksum := some "abc123", size := 10,
                 version := none } }
    ∧ ExternalDataFinishArg.updateArg "oo" "abc123" "10" "http://x/foo" =
        "--extra-data=oo:abc123:10::http://x/foo"
    ∧ "--extra-data=oo:abc123:10::http://x/foo" ≠
        "--extra-data=foo:abc123:10::http://x/foo" := by
  refine ⟨by decide, by decide, by decide⟩

/-! The module-source extractor, class ExternalDataSource
(externaldata.py lines 90-125). -/

/-- Source dictionary: one entry of a module's sources list. The keys the
code reads are modelled as optional fields (hyphens in key names replaced by
underscores); rest stands for all further keys of the dict, which this code
never reads or writes. -/
structure SourceEntry where
  type : Option String := none
  url : Option String := none
  filename : Option String := none
  dest_filename : Option String := none
  sha256 : Option String := none
  size : Option Int := none
  only_arches : Option (List String) := none
  x_checker_data : Option CheckerData := none
  rest : List (String × String) := []
deriving DecidableEq, Repr

/-- Embedding of ExternalDataSource.__init__ (externaldata.py lines 91-105):
the display name is source.get('filename') or source.get('dest-filename') or
os.path.basename(url) under Python truthiness, and the remaining fields are
read from the dict with the defaults the code passes to get. -/
def ExternalDataSource.make (source : SourceEntry) (data_type : DataType)
    (url : String) : ExternalData :=
  { type := data_type
    filename := pyOrStr source.filename (pyOrStr source.dest_filename (basename url))
    arches := source.only_arches.getD []
    checker_data := source.x_checker_data.getD {}
    current_version :=
      { url := url, checksum := source.sha256, size := source.size.getD (-1),
        version := none } }

/-- Embedding of ExternalDataSource.from_sources (externaldata.py lines
107-119): each entry whose url is present and whose type is recognized
yields one Reference; every other entry is skipped with continue. -/
def ExternalDataSource.from_sources : List SourceEntry → List ExternalData
  | [] => []
  | source :: rest =>
    match source.url, TYPES_get source.type with
    | some url, some data_type =>
        ExternalDataSource.make source data_type url ::
          ExternalDataSource.from_sources rest
    | some _, none => ExternalDataSource.from_sources rest
    | none, _ => ExternalDataSource.from_sources rest

/-- C7: from_sources constructs a Reference exactly for the entries with a
present url and a recognized type (one Reference per such entry, built from
it), and an entry with an unrecognized type or a missing url contributes no
Reference; being a total function, the extractor raises no error on such
entries. -/
theorem from_sources_skip_rule (sources : List SourceEntry) :
    (ExternalDataSource.from_sources sources).length =
      (sources.filter
        (fun s => s.url.isSome && (TYPES_get s.type).isSome)).length
    ∧ (∀ s rest, (s.url = none ∨ TYPES_get s.type = none) →
        ExternalDataSource.from_sources (s :: rest) =
          ExternalDataSource.from_sources rest)
    ∧ (∀ s rest url data_type,
        s.url = some url → TYPES_get s.type = some data_type →
        ExternalDataSource.from_sources (s :: rest) =
          ExternalDataSource.make s data_type url ::
            ExternalDataSource.from_sources rest) := by
  refine ⟨?_, ?_, ?_⟩
  · induction sources with
    | nil => rfl
    | cons s rest ih =>
      cases hu : s.url with
      | none =>
        simp [ExternalDataSource.from_sources, List.filter, hu, ih]
      | some url =>
        cases ht : TYPES_get s.type with
        | none =>
          simp [ExternalDataSource.from_sources, List.filter, hu, ht, ih]
        | some data_type =>
          simp [ExternalDataSource.from_sources, List.filter, hu, ht, ih]
  · intro s rest h
    rcases h with h | h
    · simp [ExternalDataSource.from_sources, h]
    · cases hu : s.url with
      | none => simp [ExternalDataSource.from_sources, hu]
      | some url => simp [ExternalDataSource.from_sources, hu, h]
  · intro s rest url data_type hu ht
    simp [ExternalDataSource.from_sources, hu, ht]

/-- C7 witness: the two skip examples of the claim and one constructed
entry. -/
theorem from_sources_skip_rule_witness :
    ExternalDataSource.from_sources
        [{ type := some "unknown-type", url := some "http://x" }] =
      ExternalDataSource.from_sources []
    ∧ ExternalDataSource.from_sources [{ type := some "file" }] =
        ExternalDataSource.from_sources []
    ∧ ExternalDataSource.from_sources
          [{ type := some "file", url := some "http://x/a" }] =
        ExternalDataSource.make
          { type := some "file", url := some "http://x/a" } DataType.FILE
          "http://x/a" :: ExternalDataSource.from_sources [] :=
  ⟨(from_sources_skip_rule []).2.1
      { type := some "unknown-type", url := some "http://x" } [] (Or.inr rfl),
   (from_sources_skip_rule []).2.1
      { type := some "file" } [] (Or.inl rfl),
   (from_sources_skip_rule []).2.2
      { type := some "file", url := some "http://x/a" } [] "http://x/a"
      DataType.FILE rfl rfl⟩

/-- Concrete source entry for the display-name counterexample: the filename
key is present but holds the empty string. -/
def c9source : SourceEntry :=
  { type := some "file", url := some "http://x/foo", filename := some "",
    dest_filename := some "bar" }

/-- C9 counterexample: a source entry whose filename field is present (the
empty string) yet whose Reference display name is taken from dest-filename,
because the code chains the fields with Python or, under which an empty
string is falsy; so the display name is not the present filename field. -/
theorem displayName_empty_filename_counterexample :
    c9source.filename = some "" ∧
    (ExternalDataSource.make c9source DataType.FILE "http://x/foo").filename
      = "bar" ∧
    ("bar" : String) ≠ "" := by
  refine ⟨rfl, by decide, by decide⟩

/-- C9 amended: the display name is the filename field when present and
non-empty, else the dest-filename field when present and non-empty, else the
basename of the url. -/
theorem displayName_priority (source : SourceEntry) (data_type : DataType)
    (url : String) :
    (∀ f, source.filename = some f → f ≠ "" →
      (ExternalDataSource.make source data_type url).filename = f)
    ∧ ((source.filename = none ∨ source.filename = some "") →
        ∀ g, source.dest_filename = some g → g ≠ "" →
          (ExternalDataSource.make source data_type url).filename = g)
    ∧ ((source.filename = none ∨ source.filename = some "") →
        (source.dest_filename = none ∨ source.dest_filename = some "") →
          (ExternalDataSource.make source data_type url).filename
            = basename url) := by
  refine ⟨?_, ?_, ?_⟩
  · intro f hf hne
    simp [ExternalDataSource.make, pyOrStr, hf, hne]
  · intro h g hg hne
    rcases h with h | h <;>
      simp [ExternalDataSource.make, pyOrStr, h, hg, hne]
  · intro h h'
    rcases h with h | h <;> rcases h' with h' | h' <;>
      simp [ExternalDataSource.make, pyOrStr, h, h']

/-- C9 witness: the three priority cases at concrete entries. -/
theorem displayName_priority_witness :
    (ExternalDataSource.make
        { type := some "file", url := some "http://x/f",
          filename := some "n1", dest_filename := some "n2" }
        DataType.FILE "http://x/f").filename = "n1"
    ∧ (ExternalDataSource.make
          { type := some "file", url := some "http://x/f",
            dest_filename := some "n2" }
          DataType.FILE "http://x/f").filename = "n2"
    ∧ (ExternalDataSource.make
          { type := some "file", url := some "http://x/f" }
          DataType.FILE "http://x/f").filename = basename "http://x/f" :=
  ⟨(displayName_priority
      { type := some "file", url := some "http://x/f",
        filename := some "n1", dest_filename := some "n2" }
      DataType.FILE "http://x/f").1 "n1" rfl (by decide),
   (displayName_priority
      { type := some "file", url := some "http://x/f",
        dest_filename := some "n2" }
      DataType.FILE "http://x/f").2.1 (Or.inl rfl) "n2" rfl (by decide),
   (displayName_priority
      { type := some "file", url := some "http://x/f" }
      DataType.FILE "http://x/f").2.2 (Or.inl rfl) (Or.inl rfl)⟩

/-! The plugin chain of ManifestChecker.check (checker.py lines 153-156). A
Checker Plugin is modelled by the effect of its check method on the checked
Reference. -/

abbrev CheckerFun := ExternalData → ExternalData

/-- Embedding of the inner plugin loop (checker.py lines 153-156): each
checker's check runs on the Reference and the loop breaks as soon as the
state differs from UNKNOWN. The second component records the Reference as
left by each invocation, in order, so its length is the number of plugin
invocations made for this Reference. -/
def runCheckers : List CheckerFun → ExternalData → ExternalData × List ExternalData
  | [], d => (d, [])
  | c :: cs, d =>
    if (c d).state = State.UNKNOWN then
      ((runCheckers cs (c d)).1, c d :: (runCheckers cs (c d)).2)
    else (c d, [c d])

/-- C4: in the plugin loop, every invocation except possibly the last leaves
the state UNKNOWN — equivalently, once an invocation leaves a state other
than UNKNOWN, no later plugin is invoked; in particular, with two plugins
whose first sets VALID, that single invocation is the whole trace, so the
second plugin is never invoked. -/
theorem plugin_chain_short_circuit (cs : List CheckerFun) (d : ExternalData) :
    (∀ x ∈ (runCheckers cs d).2.dropLast, x.state = State.UNKNOWN)
    ∧ (∀ c1 c2 cs', (c1 d).state = State.VALID →
        runCheckers (c1 :: c2 :: cs') d = (c1 d, [c1 d])) := by
  constructor
  · induction cs generalizing d with
    | nil =>
      intro x hx
      simp [runCheckers] at hx
    | cons c cs ih =>
      intro x hx
      by_cases h : (c d).state = State.UNKNOWN
      · simp only [runCheckers, if_pos h] at hx
        cases hrest : (runCheckers cs (c d)).2 with
        | nil =>
          rw [hrest] at hx
          simp at hx
        | cons y ys =>
          rw [hrest] at hx
          have hd : (c d :: y :: ys).dropLast = c d :: (y :: ys).dropLast := rfl
          rw [hd] at hx
          rcases List.mem_cons.mp hx with h1 | h1
          · rw [h1]; exact h
          · exact ih (c d) x (by rw [hrest]; exact h1)
      · simp only [runCheckers, if_neg h] at hx
        simp at hx
  · intro c1 c2 cs' h
    have hne : ¬(c1 d).state = State.UNKNOWN := by rw [h]; simp
    simp only [runCheckers, if_neg hne]

/-- Concrete Reference used in witnesses: a freshly extracted plain file
entry, state UNKNOWN and no proposed version. -/
def ref0 : ExternalData :=
  { type := DataType.FILE, filename := "f",
    current_version :=
      { url := "http://x/f", checksum := some "cf", size := 1,
        version := none } }

/-- C4 witness: with a first plugin that cannot decide (leaves the data as
is) followed by one that sets VALID, the non-final invocation left UNKNOWN;
and with a first plugin that sets VALID followed by another plugin, the
trace is that single invocation. -/
theorem plugin_chain_short_circuit_witness :
    ref0.state = State.UNKNOWN
    ∧ runCheckers
        [fun d => { d with state := State.VALID },
         fun d => { d with state := State.BROKEN }] ref0
        = ({ ref0 with state := State.VALID },
           [{ ref0 with state := State.VALID }]) :=
  ⟨(plugin_chain_short_circuit
      [fun d => d, fun d => { d with state := State.VALID }] ref0).1 ref0
      (by decide),
   (plugin_chain_short_circuit
      [fun d => { d with state := State.BROKEN }] ref0).2
      (fun d => { d with state := State.VALID })
      (fun d => { d with state := State.BROKEN }) [] (by decide)⟩

/-! The Manifest Orchestrator, class ManifestChecker (checker.py). The map
from manifest path to that document's list of References
(self._external_data, an insertion-ordered dict) is modelled as an
association list in insertion order. -/

abbrev ExternalDataMap := List (String × List ExternalData)

/-- Distinguished configuration error NoManifestCheckersFound (checker.py
lines 39-40), an exception class of its own, distinct from the runtime
errors checkers handle internally while checking a Reference. -/
inductive CheckError
  | noManifestCheckersFound
deriving DecidableEq, Repr

/-- The filtering test of the check loop (checker.py line 148): a Reference
is skipped when a filter is given and differs from the Reference's type. -/
def filtSkip (filter_type : Option DataType) (d : ExternalData) : Bool :=
  match filter_type with
  | none => false
  | some t => t != d.type

/-- Embedding of the per-document body of ManifestChecker.check (checker.py
lines 146-157): a filtered-out Reference stays untouched in the document's
list and is not appended to the checked accumulator; every other Reference
is run through the plugin chain, stored back and appended. -/
def checkDataList (checkers : List CheckerFun) (filter_type : Option DataType) :
    List ExternalData → List ExternalData × List ExternalData
  | [] => ([], [])
  | d :: ds =>
    if filtSkip filter_type d then
      (d :: (checkDataList checkers filter_type ds).1,
       (checkDataList checkers filter_type ds).2)
    else
      ((runCheckers checkers d).1 :: (checkDataList checkers filter_type ds).1,
       (runCheckers checkers d).1 :: (checkDataList checkers filter_type ds).2)

/-- Embedding of the outer loop of ManifestChecker.check over the documents
(checker.py lines 141-159): the updated map and the flat checked list, both
in insertion order. -/
def checkAllData (checkers : List CheckerFun) (filter_type : Option DataType) :
    ExternalDataMap → ExternalDataMap × List ExternalData
  | [] => ([], [])
  | (path, ds) :: rest =>
    ((path, (checkDataList checkers filter_type ds).1) ::
        (checkAllData checkers filter_type rest).1,
     (checkDataList checkers filter_type ds).2 ++
        (checkAllData checkers filter_type rest).2)

/-- Embedding of ManifestChecker.check (checker.py lines 131-159): with no
registered checkers it raises NoManifestCheckersFound before checking any
Reference; otherwise it runs the chain over the map. -/
def ManifestChecker.check (checkers : List CheckerFun)
    (filter_type : Option DataType) (m : ExternalDataMap) :
    Except CheckError (ExternalDataMap × List ExternalData) :=
  if checkers.isEmpty then Except.error CheckError.noManifestCheckersFound
  else Except.ok (checkAllData checkers filter_type m)

/-- Embedding of ManifestChecker.get_external_data (checker.py lines
161-172). -/
def get_external_data (only_type : Option DataType) :
    ExternalDataMap → List ExternalData
  | [] => []
  | (_, ds) :: rest =>
    ds.filter
        (fun d =>
          match only_type with
          | none => true
          | some t => d.type == t) ++
      get_external_data only_type rest

/-- Embedding of ManifestChecker.get_outdated_external_data (checker.py
lines 174-184): the References that are BROKEN or have a new version. In
Python the test reads data.new_version, which is either None (falsy) or an
ExternalFile namedtuple with four fields (always truthy), so it is exactly
presence of new_version. -/
def get_outdated_external_data (m : ExternalDataMap) : List ExternalData :=
  (get_external_data none m).filter
    (fun d => d.state == State.BROKEN || d.new_version.isSome)

/-- C8: with an empty checker list, check returns the distinguished
configuration error — the only error the orchestrator itself raises — and
produces no checked data, so (the embedding being pure) the References of
the map are exactly as loaded, state UNKNOWN; with at least one registered
checker, check never produces that error. -/
theorem no_checkers_config_error (filter_type : Option DataType)
    (m : ExternalDataMap) (c : CheckerFun) (cs : List CheckerFun) :
    ManifestChecker.check [] filter_type m
      = Except.error CheckError.noManifestCheckersFound
    ∧ ManifestChecker.check (c :: cs) filter_type m
        = Except.ok (checkAllData (c :: cs) filter_type m) := by
  constructor
  · simp [ManifestChecker.check]
  · simp [ManifestChecker.check]

/-! Concrete References for the outdated-filter example. -/

def refA : ExternalData :=
  { type := DataType.FILE, filename := "a",
    current_version :=
      { url := "http://x/a", checksum := some "ca", size := 1,
        version := none },
    state := State.VALID }

def refB : ExternalData :=
  { type := DataType.ARCHIVE, filename := "b",
    current_version :=
      { url := "http://x/b", checksum := some "cb", size := 2,
        version := none },
    state := State.BROKEN }

def refC : ExternalData :=
  { type := DataType.FILE, filename := "c",
    current_version :=
      { url := "http://x/c", checksum := some "cc", size := 3,
        version := none },
    new_version :=
      some { url := "http://x/c-2.0", checksum := some "cc2", size := 7,
             version := some "2.0" },
    state := State.VALID }

/-- C6: the outdated list consists exactly of the References of the map that
are BROKEN or carry a proposed new version; on the claim's example
collection (A valid without proposal, B broken without proposal, C valid
with a proposal) it returns exactly B then C. -/
theorem outdated_filter (m : ExternalDataMap) (d : ExternalData) :
    (d ∈ get_outdated_external_data m ↔
      d ∈ get_external_data none m ∧
        (d.state = State.BROKEN ∨ d.new_version ≠ none))
    ∧ get_outdated_external_data [("manifest.json", [refA, refB, refC])]
        = [refB, refC] := by
  constructor
  · simp only [get_outdated_external_data, List.mem_filter,
      Bool.or_eq_true, beq_iff_eq, Option.isSome_iff_ne_none]
  · decide

/-- A Reference the check-loop filter skips keeps its exact position and
value in the document's updated list. -/
theorem checkDataList_skip_pos (ch : List CheckerFun) (ft : Option DataType) :
    ∀ (ds : List ExternalData) (i : Nat) (d : ExternalData),
      ds[i]? = some d → filtSkip ft d = true →
      (checkDataList ch ft ds).1[i]? = some d := by
  intro ds
  induction ds with
  | nil =>
    intro i d h _
    simp at h
  | cons a as ih =>
    intro i d h hskip
    cases i with
    | zero =>
      simp only [List.getElem?_cons_zero, Option.some.injEq] at h
      subst h
      simp only [checkDataList, if_pos hskip, List.getElem?_cons_zero]
    | succ n =>
      simp only [List.getElem?_cons_succ] at h
      by_cases ha : filtSkip ft a
      · simp only [checkDataList, if_pos ha, List.getElem?_cons_succ]
        exact ih n d h hskip
      · simp only [checkDataList, if_neg ha, List.getElem?_cons_succ]
        exact ih n d h hskip

/-- The updated map of the check loop keeps every path at its position, with
its list replaced by the per-document result. -/
theorem checkAllData_fst_pos (ch : List CheckerFun) (ft : Option DataType) :
    ∀ (m : ExternalDataMap) (k : Nat) (p : String) (dl : List ExternalData),
      m[k]? = some (p, dl) →
      (checkAllData ch ft m).1[k]? = some (p, (checkDataList ch ft dl).1) := by
  intro m
  induction m with
  | nil =>
    intro k p dl h
    simp at h
  | cons pd rest ih =>
    intro k p dl h
    obtain ⟨p0, ds0⟩ := pd
    cases k with
    | zero =>
      simp only [List.getElem?_cons_zero, Option.some.injEq, Prod.mk.injEq] at h
      obtain ⟨h1, h2⟩ := h
      subst h1; subst h2
      simp only [checkAllData, List.getElem?_cons_zero]
    | succ n =>
      simp only [List.getElem?_cons_succ] at h
      simp only [checkAllData, List.getElem?_cons_succ]
      exact ih n p dl h

/-- The checked list a document contributes is the plugin-chain image of its
References matching the filter type. -/
theorem checkDataList_snd (ch : List CheckerFun) (t : DataType) :
    ∀ ds : List ExternalData,
      (checkDataList ch (some t) ds).2
        = (ds.filter (fun d => d.type == t)).map
            (fun d => (runCheckers ch d).1) := by
  intro ds
  induction ds with
  | nil => rfl
  | cons a as ih =>
    by_cases h : filtSkip (some t) a = true
    · have h' : (a.type == t) = false := by
        simp only [filtSkip, bne_iff_ne, ne_eq] at h
        simp only [beq_eq_false_iff_ne, ne_eq]
        exact fun hh => h hh.symm
      simp [checkDataList, h, List.filter, h', ih]
    · have h' : (a.type == t) = true := by
        simp only [filtSkip, bne_iff_ne, ne_eq, Decidable.not_not] at h
        simp only [beq_iff_eq]
        exact h.symm
      simp [checkDataList, h, List.filter, h', ih]

/-- The flat checked list of the whole check pass is the plugin-chain image
of the filtered data of the whole map. -/
theorem checkAllData_snd (ch : List CheckerFun) (t : DataType) :
    ∀ m : ExternalDataMap,
      (checkAllData ch (some t) m).2
        = (get_external_data (some t) m).map
            (fun d => (runCheckers ch d).1) := by
  intro m
  induction m with
  | nil => rfl
  | cons pd rest ih =>
    obtain ⟨p, ds⟩ := pd
    simp [checkAllData, get_external_data, checkDataList_snd, ih]

/-- Membership in a document's list gives membership in the unfiltered
get_external_data result. -/
theorem mem_get_external_data_none :
    ∀ (m : ExternalDataMap) (k : Nat) (p : String) (dl : List ExternalData)
      (d : ExternalData),
      m[k]? = some (p, dl) → d ∈ dl → d ∈ get_external_data none m := by
  intro m
  induction m with
  | nil =>
    intro k p dl d h _
    simp at h
  | cons pd rest ih =>
    intro k p dl d h hd
    obtain ⟨p0, ds0⟩ := pd
    cases k with
    | zero =>
      simp only [List.getElem?_cons_zero, Option.some.injEq, Prod.mk.injEq] at h
      obtain ⟨h1, h2⟩ := h
      subst h1; subst h2
      exact List.mem_append.mpr (Or.inl (List.mem_filter.mpr ⟨hd, rfl⟩))
    | succ n =>
      simp only [List.getElem?_cons_succ] at h
      exact List.mem_append.mpr (Or.inr (ih n p dl d h hd))

/-- C10: with a type filter, a Reference whose kind differs from the filter
keeps exactly its previous value at its position in the updated map (so its
state is still UNKNOWN and its proposed still unset whenever it was loaded
that way), while the checked list check returns is exactly the plugin-chain
image of the matching References — so no mismatching Reference is in it —
and the mismatching Reference still appears in the unfiltered
get_external_data over the updated map. -/
theorem filter_edge_case (ch : List CheckerFun) (t : DataType)
    (m : ExternalDataMap) :
    (∀ (k i : Nat) (p : String) (dl : List ExternalData) (d : ExternalData),
      m[k]? = some (p, dl) → dl[i]? = some d → d.type ≠ t →
      ∃ dl' : List ExternalData,
        (checkAllData ch (some t) m).1[k]? = some (p, dl')
        ∧ dl'[i]? = some d
        ∧ d ∈ get_external_data none (checkAllData ch (some t) m).1)
    ∧ (checkAllData ch (some t) m).2
        = (get_external_data (some t) m).map
            (fun d => (runCheckers ch d).1) := by
  constructor
  · intro k i p dl d hk hi hne
    have hskip : filtSkip (some t) d = true := by
      simp only [filtSkip, bne_iff_ne, ne_eq]
      exact fun h => hne h.symm
    have h1 := checkDataList_skip_pos ch (some t) dl i d hi hskip
    have h2 := checkAllData_fst_pos ch (some t) m k p dl hk
    refine ⟨(checkDataList ch (some t) dl).1, h2, h1, ?_⟩
    have hmem : d ∈ (checkDataList ch (some t) dl).1 := by
      have := List.getElem?_eq_some_iff.mp h1
      obtain ⟨hlt, hget⟩ := this
      exact hget ▸ List.getElem_mem hlt
    exact mem_get_external_data_none _ k p _ d h2 hmem
  · exact checkAllData_snd ch t m

/-- Concrete archive Reference of a kind other than FILE, still unchecked. -/
def refArch : ExternalData :=
  { type := DataType.ARCHIVE, filename := "g",
    current_version :=
      { url := "http://x/g", checksum := some "cg", size := 2,
        version := none } }

/-- C10 witness: checking a one-document map holding a FILE and an ARCHIVE
Reference with the FILE filter leaves the ARCHIVE Reference in place,
unchanged and reachable through unfiltered get_external_data. -/
theorem filter_edge_case_witness :
    ∃ dl' : List ExternalData,
      (checkAllData [fun d => { d with state := State.VALID }]
          (some DataType.FILE) [("m.json", [ref0, refArch])]).1[0]?
        = some ("m.json", dl')
      ∧ dl'[1]? = some refArch
      ∧ refArch ∈ get_external_data none
          (checkAllData [fun d => { d with state := State.VALID }]
            (some DataType.FILE) [("m.json", [ref0, refArch])]).1 :=
  (filter_edge_case [fun d => { d with state := State.VALID }] DataType.FILE
      [("m.json", [ref0, refArch])]).1
    0 1 "m.json" [ref0, refArch] refArch rfl rfl (by decide)

/-! The rewrite step: ExternalDataSource.update (externaldata.py lines
121-125) and ManifestChecker._update_manifest (checker.py lines 186-206). A
document's sources are modelled as the list of its source dicts, and the
live dict reference self.source each ExternalDataSource holds back into the
tree is modelled as the index of its entry in that list. -/

structure SourceRef where
  data : ExternalData
  srcIdx : Nat
deriving DecidableEq, Repr

/-- In-place replacement of one list element, the mutation of the dict node
the Reference points into. -/
def listModify {α : Type} (f : α → α) : Nat → List α → List α
  | _, [] => []
  | 0, a :: as => f a :: as
  | n + 1, a :: as => a :: listModify f n as

/-- Embedding of the three key writes of ExternalDataSource.update
(externaldata.py lines 123-125) on the entry's dict: url, sha256 and size
are set from the new version; every other key is untouched. -/
def applySourceUpdate (nv : ExternalFile) (s : SourceEntry) : SourceEntry :=
  { s with url := some nv.url, sha256 := nv.checksum, size := some nv.size }

/-- Embedding of ExternalDataSource.update (externaldata.py lines 121-125):
without a new version nothing is written. -/
def ExternalDataSource.update (doc : List SourceEntry) (r : SourceRef) :
    List SourceEntry :=
  match r.data.new_version with
  | none => doc
  | some nv => listModify (applySourceUpdate nv) r.srcIdx doc

/-- The change description _update_manifest records for one Reference
(checker.py lines 188-200): none without a new version, otherwise an Update
line naming the Reference, with the version appended when known. -/
def changeEntry (d : ExternalData) : Option String :=
  match d.new_version with
  | none => none
  | some nv =>
    match nv.version with
    | some v => some ("Update " ++ d.filename ++ " to " ++ v)
    | none => some ("Update " ++ d.filename)

/-- Embedding of the loop of ManifestChecker._update_manifest (checker.py
lines 187-200): References without a new version are passed over; each other
Reference writes its entry and records its change description, in order. -/
def update_manifest_loop (doc : List SourceEntry) :
    List SourceRef → List SourceEntry × List String
  | [] => (doc, [])
  | r :: rs =>
    match r.data.new_version with
    | none => update_manifest_loop doc rs
    | some nv =>
      ((update_manifest_loop (ExternalDataSource.update doc r) rs).1,
       (match nv.version with
        | some v => "Update " ++ r.data.filename ++ " to " ++ v
        | none => "Update " ++ r.data.filename) ::
         (update_manifest_loop (ExternalDataSource.update doc r) rs).2)

/-- Embedding of ManifestChecker._update_manifest (checker.py lines
186-206): the updated document, the change list, and whether the document is
serialized back to its file — exactly when the change list is non-empty. -/
def update_manifest (doc : List SourceEntry) (datas : List SourceRef) :
    List SourceEntry × List String × Bool :=
  ((update_manifest_loop doc datas).1,
   (update_manifest_loop doc datas).2,
   !(update_manifest_loop doc datas).2.isEmpty)

/-- Frame property of element replacement: other indices are untouched. -/
theorem listModify_getElem?_ne {α : Type} (f : α → α) :
    ∀ (i j : Nat) (l : List α), i ≠ j → (listModify f i l)[j]? = l[j]? := by
  intro i j l
  induction l generalizing i j with
  | nil =>
    intro _
    cases i <;> rfl
  | cons a as ih =>
    intro h
    cases i with
    | zero =>
      cases j with
      | zero => exact absurd rfl h
      | succ m => simp [listModify]
    | succ n =>
      cases j with
      | zero => simp [listModify]
      | succ m =>
        simp only [listModify, List.getElem?_cons_succ]
        exact ih n m (fun hh => h (by rw [hh]))

/-- Element replacement maps the replaced index through the function. -/
theorem listModify_getElem?_eq {α : Type} (f : α → α) :
    ∀ (i : Nat) (l : List α), (listModify f i l)[i]? = (l[i]?).map f := by
  intro i l
  induction l generalizing i with
  | nil => simp [listModify]
  | cons a as ih =>
    cases i with
    | zero => simp [listModify]
    | succ n =>
      simp only [listModify, List.getElem?_cons_succ]
      exact ih n

/-- An index no updated Reference points at is untouched by the update
loop. -/
theorem update_manifest_loop_frame :
    ∀ (datas : List SourceRef) (doc : List SourceEntry) (j : Nat),
      (∀ r ∈ datas, r.srcIdx = j → r.data.new_version = none) →
      (update_manifest_loop doc datas).1[j]? = doc[j]? := by
  intro datas
  induction datas with
  | nil => intro doc j _; rfl
  | cons r rs ih =>
    intro doc j h
    cases hnv : r.data.new_version with
    | none =>
      simp only [update_manifest_loop, hnv]
      exact ih doc j (fun r' hr' => h r' (List.mem_cons_of_mem _ hr'))
    | some nv =>
      have hne : r.srcIdx ≠ j := by
        intro he
        have hc := h r (List.mem_cons_self r rs) he
        rw [hnv] at hc
        exact Option.noConfusion hc
      simp only [update_manifest_loop, hnv]
      rw [ih (ExternalDataSource.update doc r) j
        (fun r' hr' => h r' (List.mem_cons_of_mem _ hr'))]
      simp only [ExternalDataSource.update, hnv]
      exact listModify_getElem?_ne _ _ _ _ hne

/-- The change list of the update loop is one description per Reference with
a new version, independent of the document. -/
theorem update_manifest_loop_changes :
    ∀ (datas : List SourceRef) (doc : List SourceEntry),
      (update_manifest_loop doc datas).2
        = datas.filterMap (fun r => changeEntry r.data) := by
  intro datas
  induction datas with
  | nil => intro doc; rfl
  | cons r rs ih =>
    intro doc
    cases hnv : r.data.new_version with
    | none =>
      simp [update_manifest_loop, hnv, List.filterMap_cons, changeEntry, ih]
    | some nv =>
      cases hv : nv.version with
      | none =>
        simp [update_manifest_loop, hnv, List.filterMap_cons, changeEntry,
          hv, ih]
      | some v =>
        simp [update_manifest_loop, hnv, List.filterMap_cons, changeEntry,
          hv, ih]

/-- A Reference records no change description exactly when it has no new
version. -/
theorem changeEntry_eq_none (d : ExternalData) :
    changeEntry d = none ↔ d.new_version = none := by
  cases hnv : d.new_version with
  | none => simp [changeEntry, hnv]
  | some nv =>
    cases hv : nv.version with
    | none => simp [changeEntry, hnv, hv]
    | some v => simp [changeEntry, hnv, hv]

/-- With pairwise distinct entry indices, the update loop writes exactly the
proposal's fields at the index of each updated Reference. -/
theorem update_manifest_loop_writes :
    ∀ (datas : List SourceRef) (doc : List SourceEntry),
      (datas.map SourceRef.srcIdx).Nodup →
      ∀ r ∈ datas, ∀ nv, r.data.new_version = some nv →
        (update_manifest_loop doc datas).1[r.srcIdx]?
          = (doc[r.srcIdx]?).map (applySourceUpdate nv) := by
  intro datas
  induction datas with
  | nil =>
    intro doc _ r hr
    simp at hr
  | cons r0 rs ih =>
    intro doc hnd r hr nv hnv
    rw [List.map_cons, List.nodup_cons] at hnd
    rcases List.mem_cons.mp hr with he | hmem
    · subst he
      simp only [update_manifest_loop, hnv]
      rw [update_manifest_loop_frame rs (ExternalDataSource.update doc r) r.srcIdx
        (fun r' hr' he' =>
          absurd (he' ▸ List.mem_map_of_mem SourceRef.srcIdx hr') hnd.1)]
      simp only [ExternalDataSource.update, hnv]
      exact listModify_getElem?_eq _ _ _
    · cases hnv0 : r0.data.new_version with
      | none =>
        simp only [update_manifest_loop, hnv0]
        exact ih doc hnd.2 r hmem nv hnv
      | some nv0 =>
        have hne : r0.srcIdx ≠ r.srcIdx := by
          intro he
          exact hnd.1 (he ▸ List.mem_map_of_mem SourceRef.srcIdx hmem)
        simp only [update_manifest_loop, hnv0]
        rw [ih (ExternalDataSource.update doc r0) hnd.2 r hmem nv hnv]
        simp only [ExternalDataSource.update, hnv0]
        rw [listModify_getElem?_ne _ _ _ _ hne]

/-- C5: the rewrite step writes url/sha256/size back only at the entries of
References carrying a proposed new version — every index no updated
Reference points at keeps its entry byte-identical, and, when the References
point at pairwise distinct entries (as extraction guarantees), each updated
Reference's entry receives exactly the three fields of its proposal with all
other keys kept; the change list holds exactly one description per updated
Reference, in the stated Update format; and the document is serialized
exactly when at least one Reference was updated. -/
theorem update_selectivity (doc : List SourceEntry) (datas : List SourceRef) :
    ((∀ j : Nat, (∀ r ∈ datas, r.srcIdx = j → r.data.new_version = none) →
        (update_manifest doc datas).1[j]? = doc[j]?)
      ∧ ((datas.map SourceRef.srcIdx).Nodup →
          ∀ r ∈ datas, ∀ nv, r.data.new_version = some nv →
            (update_manifest doc datas).1[r.srcIdx]?
              = (doc[r.srcIdx]?).map (applySourceUpdate nv)))
    ∧ (update_manifest doc datas).2.1
        = datas.filterMap (fun r => changeEntry r.data)
    ∧ ((update_manifest doc datas).2.2 = true ↔
        ∃ r ∈ datas, r.data.new_version ≠ none) := by
  refine ⟨⟨?_, ?_⟩, ?_, ?_⟩
  · intro j h
    exact update_manifest_loop_frame datas doc j h
  · intro hnd r hr nv hnv
    exact update_manifest_loop_writes datas doc hnd r hr nv hnv
  · exact update_manifest_loop_changes datas doc
  · have key : (datas.filterMap (fun r => changeEntry r.data)).isEmpty = true
        ↔ ∀ r ∈ datas, r.data.new_version = none := by
      rw [List.isEmpty_iff, List.filterMap_eq_nil_iff]
      constructor
      · intro h r hr
        exact (changeEntry_eq_none r.data).mp (h r hr)
      · intro h r hr
        exact (changeEntry_eq_none r.data).mpr (h r hr)
    have hd : (update_manifest doc datas).2.2
        = !(datas.filterMap (fun r => changeEntry r.data)).isEmpty := by
      simp only [update_manifest, update_manifest_loop_changes]
    rw [hd]
    cases hE : (datas.filterMap (fun r => changeEntry r.data)).isEmpty with
    | true =>
      simp only [Bool.not_true]
      constructor
      · intro h
        exact absurd h (by simp)
      · rintro ⟨r, hr, hne⟩
        exact absurd (key.mp hE r hr) hne
    | false =>
      simp only [Bool.not_false]
      constructor
      · intro _
        by_contra hc
        push_neg at hc
        have hall : ∀ r ∈ datas, r.data.new_version = none := by
          intro r hr
          exact hc r hr
        rw [key.mpr hall] at hE
        exact Bool.noConfusion hE
      · intro _
        trivial

/-! Concrete data for the update-selectivity witness. -/

def srcE1 : SourceEntry :=
  { type := some "file", url := some "http://x/a", sha256 := some "ca",
    size := some 1, rest := [("x-note", "keep")] }

def srcE2 : SourceEntry :=
  { type := some "file", url := some "http://x/b", sha256 := some "cb",
    size := some 2 }

def nvB : ExternalFile :=
  { url := "http://x/b-2.0", checksum := some "cb2", size := 9,
    version := some "2.0" }

def updRef1 : SourceRef :=
  { data :=
      { type := DataType.FILE, filename := "a",
        current_version :=
          { url := "http://x/a", checksum := some "ca", size := 1,
            version := none },
        state := State.VALID },
    srcIdx := 0 }

def updRef2 : SourceRef :=
  { data :=
      { type := DataType.FILE, filename := "b",
        current_version :=
          { url := "http://x/b", checksum := some "cb", size := 2,
            version := none },
        new_version := some nvB, state := State.BROKEN },
    srcIdx := 1 }

/-- C5 witness: in a two-entry document where only the second Reference has
a proposal, the first entry stays byte-identical, the second is rewritten
from the proposal, and the document is serialized. -/
theorem update_selectivity_witness :
    (update_manifest [srcE1, srcE2] [updRef1, updRef2]).1[0]? = some srcE1
    ∧ (update_manifest [srcE1, srcE2] [updRef1, updRef2]).1[1]?
        = some (applySourceUpdate nvB srcE2)
    ∧ (update_manifest [srcE1, srcE2] [updRef1, updRef2]).2.2 = true :=
  ⟨((update_selectivity [srcE1, srcE2] [updRef1, updRef2]).1.1 0
      (by decide)).trans rfl,
   ((update_selectivity [srcE1, srcE2] [updRef1, updRef2]).1.2 (by decide)
      updRef2 (by decide) nvB rfl).trans rfl,
   ((update_selectivity [srcE1, srcE2] [updRef1, updRef2]).2.2).mpr
      ⟨updRef2, by decide, by decide⟩⟩

/-! The URL checker plugin, class URLChecker (checkers/urlchecker.py). The
network call utils.get_extra_data_info_from_url lives outside the checked
modules and is modelled as an oracle from the probed URL to its outcome;
likewise utils.extract_appimage_version as an oracle on the display name and
the fetched body. -/

/-- Outcome of the network fetch: an HTTP-level error, any other exception,
or the final post-redirect URL with the body, its checksum and its size —
the four values utils.get_extra_data_info_from_url returns. -/
inductive FetchResult
  | httpError
  | otherError
  | success (new_url : String) (data : String) (checksum : String) (size : Int)
deriving DecidableEq, Repr

/-- Embedding of the comparison step of URLChecker.check (urlchecker.py
lines 75-80): VALID when the candidate matches the current snapshot, else
BROKEN with the candidate stored as the new version. -/
def urlCheckOutcome (ed : ExternalData) (candidate : ExternalFile) :
    ExternalData :=
  if ed.current_version.matches candidate then { ed with state := State.VALID }
  else { ed with state := State.BROKEN, new_version := some candidate }

/-- Embedding of URLChecker.check (urlchecker.py lines 45-80). The probed
URL is the checker metadata url for rotating-url metadata, else the current
URL; a KeyError from checker_data['url'] — rotating metadata without a url
key — is not caught by the method and propagates, modelled as Except.error;
fetch failures are caught and make the Reference BROKEN; on success the
candidate's URL is the resolved URL for rotating metadata and the probed URL
otherwise, with an AppImage version extracted when the probed URL ends in
.AppImage. -/
def URLChecker.check (fetch : String → FetchResult)
    (extract : String → String → Option String) (ed : ExternalData) :
    Except Unit ExternalData :=
  let is_rotating := ed.checker_data.type == some "rotating-url"
  match (if is_rotating then ed.checker_data.url
         else some ed.current_version.url) with
  | none => Except.error ()
  | some url =>
    match fetch url with
    | FetchResult.httpError => Except.ok { ed with state := State.BROKEN }
    | FetchResult.otherError => Except.ok { ed with state := State.BROKEN }
    | FetchResult.success new_url data checksum size =>
      Except.ok (urlCheckOutcome ed
        { url := if is_rotating then new_url else url,
          checksum := some checksum, size := size,
          version :=
            if pyEndsWith url ".AppImage" then extract ed.filename data
            else none })

/-- C3: with rotating-url checker metadata the URL checker probes the
metadata url and, on a successful fetch, the candidate snapshot carries the
post-redirect resolved URL; without rotating metadata it probes the current
URL, which the candidate keeps; in both cases the Reference becomes VALID
when the candidate matches the current snapshot, and otherwise BROKEN with
the candidate as its proposed new version. -/
theorem url_checker_check_success (fetch : String → FetchResult)
    (extract : String → String → Option String) (ed : ExternalData) :
    (∀ mu new_url data checksum size,
      ed.checker_data.type = some "rotating-url" →
      ed.checker_data.url = some mu →
      fetch mu = FetchResult.success new_url data checksum size →
      URLChecker.check fetch extract ed =
        Except.ok
          (urlCheckOutcome ed
            { url := new_url, checksum := some checksum, size := size,
              version :=
                if pyEndsWith mu ".AppImage" then extract ed.filename data
                else none }))
    ∧ (∀ new_url data checksum size,
      ed.checker_data.type ≠ some "rotating-url" →
      fetch ed.current_version.url
        = FetchResult.success new_url data checksum size →
      URLChecker.check fetch extract ed =
        Except.ok
          (urlCheckOutcome ed
            { url := ed.current_version.url, checksum := some checksum,
              size := size,
              version :=
                if pyEndsWith ed.current_version.url ".AppImage" then
                  extract ed.filename data
                else none })) := by
  constructor
  · intro mu new_url data checksum size ht hu hf
    have hrot : (ed.checker_data.type == some "rotating-url") = true := by
      rw [ht]
      exact beq_self_eq_true _
    simp only [URLChecker.check, hrot, if_true, hu, hf]
  · intro new_url data checksum size ht hf
    have hrot : (ed.checker_data.type == some "rotating-url") = false :=
      beq_eq_false_iff_ne.mpr ht
    simp only [URLChecker.check, hrot, Bool.false_eq_true, if_false, hf]

/-! Concrete data for the URL checker witness: the claim's rotating-URL
scenario and a plain still-valid scenario. -/

def rotRef : ExternalData :=
  { type := DataType.EXTRA_DATA, filename := "real",
    checker_data :=
      { type := some "rotating-url", url := some "http://indirect" },
    current_version :=
      { url := "http://old/real-1.0.tar.gz", checksum := some "oldsum",
        size := 100, version := none } }

def rotFetch : String → FetchResult := fun u =>
  if u = "http://indirect" then
    FetchResult.success "http://real/real-2.0.tar.gz" "body" "newsum" 200
  else FetchResult.httpError

def plainRef : ExternalData :=
  { type := DataType.FILE, filename := "f2",
    current_version :=
      { url := "http://x/f2", checksum := some "cf2", size := 5,
        version := none } }

def plainFetch : String → FetchResult := fun u =>
  if u = "http://x/f2" then FetchResult.success "http://x/f2" "b" "cf2" 5
  else FetchResult.httpError

/-- C3 witness: the rotating-URL scenario ends BROKEN with the resolved URL
proposed, and a plain Reference whose URL still serves the same content ends
VALID. -/
theorem url_checker_check_success_witness :
    URLChecker.check rotFetch (fun _ _ => none) rotRef
      = Except.ok
          { rotRef with
            state := State.BROKEN,
            new_version :=
              some { url := "http://real/real-2.0.tar.gz",
                     checksum := some "newsum", size := 200,
                     version := none } }
    ∧ URLChecker.check plainFetch (fun _ _ => none) plainRef
        = Except.ok { plainRef with state := State.VALID } := by
  constructor
  · have h := (url_checker_check_success rotFetch (fun _ _ => none) rotRef).1
      "http://indirect" "http://real/real-2.0.tar.gz" "body" "newsum" 200
      rfl rfl (by decide)
    rw [h]
    rfl
  · have h := (url_checker_check_success plainFetch (fun _ _ => none)
      plainRef).2 "http://x/f2" "b" "cf2" 5 (by decide) (by decide)
    rw [h]
    rfl

end FEDC
